import Mathlib

/-!
Shallow embedding of the Flask geospatial API in `src/api/app.py`.

Coordinates are embedded as exact rationals.  Calls into the third-party
geometry stack (shapely, geopandas, pyproj, scipy) are modelled as abstract
oracle functions carried in per-endpoint "library" structures; fallible
library calls return `Except String`, a raised Python exception being an
`Except.error` carrying the exception text.  Each endpoint is the
translation of its handler's `try` body, wrapped by `handle`, the
translation of the shared `except Exception as e: return jsonify(...), 400`
epilogue.
-/

namespace GeoApi

/-- A planar coordinate pair, as exact rationals. -/
abbrev Pt := Rat × Rat

/-- The body of a JSON response: either the success payload (serialized with
`"status": "success"`) or the error payload `{"status": "error",
"message": msg}`. -/
inductive ApiResult (A : Type) where
  | success (payload : A)
  | error (message : String)
deriving DecidableEq

/-- The `"status"` field of a response body. -/
def statusOf {A : Type} : ApiResult A → String
  | .success _ => "success"
  | .error _ => "error"

/-- The shared endpoint epilogue: a `try` body that returned normally is sent
with HTTP 200, a raised exception is converted to the error payload and sent
with HTTP 400. -/
def handle {A : Type} : Except String A → Nat × ApiResult A
  | .ok a => (200, .success a)
  | .error e => (400, .error e)

/-! ### `/api/buffer` (`buffer_geometry`, app.py lines 22-57) -/

/-- The library calls used by `buffer_geometry`: `shape` (shapely GeoJSON
parsing, raising on `None` or malformed input), the two `to_crs`
reprojections, `buffer`, and GeoJSON serialization. -/
structure BufferLib (J G : Type) where
  shape : Option J → Except String G
  to_crs_3857 : G → Except String G
  buffer : G → Rat → Except String G
  to_crs_4326 : G → Except String G
  to_json : G → J

/-- The request body of `/api/buffer`: `data.get('geometry')` and
`data.get('distance', 100)`. -/
structure BufferReq (J : Type) where
  geometry : Option J := none
  distance : Option Rat := none

/-- The `try` body of `buffer_geometry`: parse, project to EPSG:3857, buffer
at the requested distance (default 100), project back to EPSG:4326,
serialize. -/
def buffer_body {J G : Type} (lib : BufferLib J G) (req : BufferReq J) :
    Except String J :=
  let distance := req.distance.getD 100
  match lib.shape req.geometry with
  | .error e => .error e
  | .ok geometry =>
    match lib.to_crs_3857 geometry with
    | .error e => .error e
    | .ok projected =>
      match lib.buffer projected distance with
      | .error e => .error e
      | .ok buffered =>
        match lib.to_crs_4326 buffered with
        | .error e => .error e
        | .ok wgs84 => .ok (lib.to_json wgs84)

/-- The `/api/buffer` endpoint. -/
def buffer_geometry {J G : Type} (lib : BufferLib J G) (req : BufferReq J) :
    Nat × ApiResult J :=
  handle (buffer_body lib req)

/-! ### `/api/simplify` (`simplify_geometry`, app.py lines 59-84) -/

/-- The library calls used by `simplify_geometry`: `shape`, shapely's
`simplify`, and `__geo_interface__` serialization. -/
structure SimplifyLib (J G : Type) where
  shape : Option J → Except String G
  simplify : G → Rat → Except String G
  to_geo_interface : G → J

/-- The request body of `/api/simplify`: `data.get('geometry')` and
`data.get('tolerance', 0.0001)`. -/
structure SimplifyReq (J : Type) where
  geometry : Option J := none
  tolerance : Option Rat := none

/-- The `try` body of `simplify_geometry`: parse, simplify at the requested
tolerance (default 0.0001), serialize.  The Python float literal `0.0001` is
embedded as the exact rational 1/10000. -/
def simplify_body {J G : Type} (lib : SimplifyLib J G) (req : SimplifyReq J) :
    Except String J :=
  let tolerance := req.tolerance.getD (1 / 10000)
  match lib.shape req.geometry with
  | .error e => .error e
  | .ok geometry =>
    match lib.simplify geometry tolerance with
    | .error e => .error e
    | .ok simplified => .ok (lib.to_geo_interface simplified)

/-- The `/api/simplify` endpoint. -/
def simplify_geometry {J G : Type} (lib : SimplifyLib J G) (req : SimplifyReq J) :
    Nat × ApiResult J :=
  handle (simplify_body lib req)

/-! ### `/api/intersection` (`find_intersection`, app.py lines 86-118) -/

/-- The library calls used by `find_intersection`: `shape`, shapely's
`intersects` predicate and `intersection` operation, and serialization. -/
structure IntersectLib (J G : Type) where
  shape : Option J → Except String G
  intersects : G → G → Bool
  intersection : G → G → G
  to_geo_interface : G → J

/-- The request body of `/api/intersection`. -/
structure IntersectReq (J : Type) where
  geometry1 : Option J := none
  geometry2 : Option J := none

/-- The success payload of `/api/intersection`: the `intersects` flag and the
(possibly `null`) `intersection` field. -/
structure IntersectOut (J : Type) where
  intersects : Bool
  intersection : Option J
deriving DecidableEq

/-- The `try` body of `find_intersection`: parse both geometries; if they
intersect return the computed intersection, otherwise a `null` intersection
with a `false` flag. -/
def find_intersection_body {J G : Type} (lib : IntersectLib J G)
    (req : IntersectReq J) : Except String (IntersectOut J) :=
  match lib.shape req.geometry1 with
  | .error e => .error e
  | .ok geometry1 =>
    match lib.shape req.geometry2 with
    | .error e => .error e
    | .ok geometry2 =>
      if lib.intersects geometry1 geometry2 then
        .ok { intersects := true,
              intersection := some (lib.to_geo_interface
                (lib.intersection geometry1 geometry2)) }
      else
        .ok { intersects := false, intersection := none }

/-- The `/api/intersection` endpoint. -/
def find_intersection {J G : Type} (lib : IntersectLib J G)
    (req : IntersectReq J) : Nat × ApiResult (IntersectOut J) :=
  handle (find_intersection_body lib req)

/-- The `intersects` flag of an intersection response body (`false` on the
error payload, which carries no flag). -/
def intersectsFlag {J : Type} : ApiResult (IntersectOut J) → Bool
  | .success o => o.intersects
  | .error _ => false

/-- Whether the `intersection` field of an intersection response body is
non-null (`false` on the error payload). -/
def intersectionPresent {J : Type} : ApiResult (IntersectOut J) → Bool
  | .success o => o.intersection.isSome
  | .error _ => false

/-! ### `/api/analyze` (`analyze_geojson`, app.py lines 120-168) -/

/-- A GeoJSON property value. -/
inductive PVal where
  | s (v : String)
  | n (v : Rat)
  | b (v : Bool)
  | null
deriving DecidableEq

/-- A shapely geometry as held in a GeoDataFrame row: its `type` string and
its coordinates. -/
structure Geom where
  gtype : String
  coords : List Pt
deriving DecidableEq

/-- A GeoJSON feature: a geometry plus an ordered mapping of property names
to values (JSON objects preserve insertion order). -/
structure Feature where
  geometry : Geom
  properties : List (String × PVal)
deriving DecidableEq

/-- The value of the request's `geojson` key: an object with a `features`
array. -/
structure FeatureColl where
  features : List Feature

/-- The request body of `/api/analyze`. -/
structure AnalyzeReq where
  geojson : Option FeatureColl := none

/-- Keys of a stream of row dictionaries in pandas column order: the order of
first occurrence. -/
def firstSeen (keys : List String) : List String :=
  keys.foldl (fun acc k => if k ∈ acc then acc else acc ++ [k]) []

/-- The columns of `GeoDataFrame.from_features(features)`: each row dict is
built as `{"geometry": ...}` first and then updated with the feature's
properties, so pandas places the `geometry` column first, followed by the
property names in order of first occurrence. -/
def gdfColumns (fs : List Feature) : List String :=
  firstSeen (fs.foldr (fun f acc => ("geometry" :: f.properties.map Prod.fst) ++ acc) [])

/-- `gdf.geometry.type.value_counts().to_dict()`: each occurring geometry
type with its occurrence count.  (pandas orders the dict by descending count;
the code only ever tests key membership, so the order used here is first
occurrence.) -/
def typeCounts (ts : List String) : List (String × Nat) :=
  (firstSeen ts).map (fun t => (t, ts.count t))

/-- Smallest enclosing axis-aligned box, as `gdf.total_bounds` computes it. -/
structure Bounds where
  xmin : Rat
  ymin : Rat
  xmax : Rat
  ymax : Rat
deriving DecidableEq

/-- Extend a box to cover one more point. -/
def mergeB (b : Bounds) (p : Pt) : Bounds :=
  ⟨min b.xmin p.1, min b.ymin p.2, max b.xmax p.1, max b.ymax p.2⟩

/-- The box of a single point. -/
def ptBounds (p : Pt) : Bounds := ⟨p.1, p.2, p.1, p.2⟩

/-- `total_bounds` of a list of points: min/max of each coordinate.  (On an
empty list geopandas yields NaN bounds; that case is unreachable in the
modelled claims and is given an arbitrary box here.) -/
def totalBounds : List Pt → Bounds
  | [] => ⟨0, 0, 0, 0⟩
  | p :: ps => ps.foldl mergeB (ptBounds p)

/-- `gdf.total_bounds.tolist()` for the analyze statistics: `[minx, miny,
maxx, maxy]` over all coordinates of all features. -/
def boundsList (fs : List Feature) : List Rat :=
  let b := totalBounds (fs.foldr (fun f acc => f.geometry.coords ++ acc) [])
  [b.xmin, b.ymin, b.xmax, b.ymax]

/-- The `statistics` payload of `/api/analyze`.  The four area fields are
present only when a polygonal type occurs, the four length fields only when a
line type occurs, mirroring the conditional `stats[...] = ...` insertions. -/
structure Stats where
  feature_count : Nat
  geometry_types : List (String × Nat)
  properties : List String
  bounds : List Rat
  total_area_m2 : Option Rat := none
  mean_area_m2 : Option Rat := none
  min_area_m2 : Option Rat := none
  max_area_m2 : Option Rat := none
  total_length_m : Option Rat := none
  mean_length_m : Option Rat := none
  min_length_m : Option Rat := none
  max_length_m : Option Rat := none
deriving DecidableEq

/-- The library calls used by `analyze_geojson`: `to_crs` (which raises on
the CRS-less frame `from_features` builds), and the pandas aggregation of
areas/lengths of the projected polygonal/line rows, abstracted as oracles
returning `(sum, mean, min, max)`. -/
structure AnalyzeLib where
  to_crs_gdf : List Feature → Except String (List Feature)
  area_stats : List Feature → Rat × Rat × Rat × Rat
  length_stats : List Feature → Rat × Rat × Rat × Rat

/-- The `try` body of `analyze_geojson`.  A missing `geojson` key makes
`geojson["features"]` raise a `TypeError` (exact CPython message not
modelled).  Note `properties := (gdfColumns fs).dropLast`: the code takes
`gdf.columns[:-1]` with the comment "All columns except geometry". -/
def analyze_body (lib : AnalyzeLib) (req : AnalyzeReq) : Except String Stats :=
  match req.geojson with
  | none => .error "TypeError"
  | some gj =>
    let fs := gj.features
    let types := typeCounts (fs.map (fun f => f.geometry.gtype))
    let names := types.map Prod.fst
    let base : Stats := {
      feature_count := fs.length
      geometry_types := types
      properties := (gdfColumns fs).dropLast
      bounds := boundsList fs }
    let step1 : Except String Stats :=
      if "Polygon" ∈ names ∨ "MultiPolygon" ∈ names then
        match lib.to_crs_gdf fs with
        | .error e => .error e
        | .ok proj =>
          let a := lib.area_stats proj
          .ok { base with total_area_m2 := some a.1, mean_area_m2 := some a.2.1,
                          min_area_m2 := some a.2.2.1, max_area_m2 := some a.2.2.2 }
      else .ok base
    match step1 with
    | .error e => .error e
    | .ok s1 =>
      if "LineString" ∈ names ∨ "MultiLineString" ∈ names then
        match lib.to_crs_gdf fs with
        | .error e => .error e
        | .ok proj =>
          let l := lib.length_stats proj
          .ok { s1 with total_length_m := some l.1, mean_length_m := some l.2.1,
                        min_length_m := some l.2.2.1, max_length_m := some l.2.2.2 }
      else .ok s1

/-- The `/api/analyze` endpoint. -/
def analyze_geojson (lib : AnalyzeLib) (req : AnalyzeReq) : Nat × ApiResult Stats :=
  handle (analyze_body lib req)

/-! ### `/api/convert` (`convert_format`, app.py lines 170-214) -/

/-- The library calls used by `convert_format`: saving the upload to a fresh
temporary path and reading it back with `gpd.read_file` (abstracted as one
fallible call), plus the two serializers. -/
structure ConvertLib (F D J : Type) where
  read_file : F → Except String D
  to_json : D → J
  to_wkt : D → List String

/-- The request of `/api/convert`: the multipart `files` mapping and the
optional `format` form field. -/
structure ConvertReq (F : Type) where
  files : List (String × F) := []
  format : Option String := none

/-- The `data` payload of a successful conversion: a GeoJSON structure or a
list of WKT strings. -/
inductive ConvertData (J : Type) where
  | geo (j : J)
  | wkt (ws : List String)
deriving DecidableEq

/-- The `try` body of `convert_format`.  The three `return jsonify(...)`
statements inside the `try` are normal returns, so the body's normal result
already carries its HTTP code; a raised exception is an `Except.error`. -/
def convert_body {F D J : Type} (lib : ConvertLib F D J) (req : ConvertReq F) :
    Except String (Nat × ApiResult (ConvertData J)) :=
  match req.files.lookup "file" with
  | none => .ok (400, .error "No file provided")
  | some file =>
    let output_format := req.format.getD "geojson"
    match lib.read_file file with
    | .error e => .error e
    | .ok gdf =>
      if output_format = "geojson" then
        .ok (200, .success (ConvertData.geo (lib.to_json gdf)))
      else if output_format = "wkt" then
        .ok (200, .success (ConvertData.wkt (lib.to_wkt gdf)))
      else
        .ok (400, .error ("Unsupported output format: " ++ output_format))

/-- The `/api/convert` endpoint. -/
def convert_format {F D J : Type} (lib : ConvertLib F D J) (req : ConvertReq F) :
    Nat × ApiResult (ConvertData J) :=
  match convert_body lib req with
  | .ok r => r
  | .error e => (400, .error e)

/-! ### `/api/voronoi` (`create_voronoi`, app.py lines 216-275) -/

/-- The scipy `Voronoi` diagram as the loop consumes it: `point_region`
(region index of each input point), `regions` (vertex-index lists, with `-1`
marking the infinite vertex), and `vertices`. -/
structure VorDiagram where
  point_region : List Nat
  regions : List (List Int)
  vertices : List Pt
deriving DecidableEq

/-- The library calls used by `create_voronoi`: pointwise reprojection of the
input points to EPSG:3857, scipy's `Voronoi` constructor (raising on
degenerate input), shapely's polygon `intersection` used for clipping
(a polygon being embedded as its shell ring), and serialization. -/
structure VoronoiLib (J : Type) where
  to_crs_points : List Pt → Except String (List Pt)
  voronoi : List Pt → Except String VorDiagram
  clip : List Pt → List Pt → List Pt
  to_json : List (List Pt) → J

/-- The request body of `/api/voronoi`. -/
structure VoronoiReq where
  points : Option (List Pt) := none

/-- `vor.vertices[i]` for a region entry `i`.  scipy region entries are `-1`
or valid nonnegative positions, and entries of kept regions are always in
range; out-of-range lookups (which would raise in Python) return a junk
point. -/
def vertexAt (vs : List Pt) (i : Int) : Pt := vs.getD i.toNat (0, 0)

/-- The boundary rectangle 20% larger than the points extent, app.py lines
241-246: corners at `0.2 * (extent width/height)` beyond the bounds. -/
def vorBoundary (b : Bounds) : List Pt :=
  let dx := b.xmax - b.xmin
  let dy := b.ymax - b.ymin
  [(b.xmin - (2/10) * dx, b.ymin - (2/10) * dy),
   (b.xmax + (2/10) * dx, b.ymin - (2/10) * dy),
   (b.xmax + (2/10) * dx, b.ymax + (2/10) * dy),
   (b.xmin - (2/10) * dx, b.ymax + (2/10) * dy)]

/-- The region loop of `create_voronoi`, app.py lines 249-256.  For each
enumerated entry of `point_region` the region is fetched; a region containing
`-1` or empty is discarded; otherwise the polygon is built from
`[vor.vertices[i] for i in region]` — the comprehension variable `i` shadows
the outer loop index, so the lookup uses the region's own vertex indices —
and clipped against the boundary. -/
def voronoiPolygons (clip : List Pt → List Pt → List Pt) (vor : VorDiagram)
    (boundary : List Pt) : List (List Pt) :=
  vor.point_region.enum.filterMap (fun ir =>
    let region := vor.regions.getD ir.2 []
    if (-1 : Int) ∉ region ∧ 0 < region.length then
      some (clip (region.map (vertexAt vor.vertices)) boundary)
    else none)

/-- The region loop as the spec's "indexing note" reads it: the per-region
vertex lookup uses the same loop index as the region-to-point
correspondence, i.e. every vertex of the polygon for enumerated point `i` is
`vor.vertices[i]`.  This definition follows the spec's words, for comparison
with `voronoiPolygons`, which is translated from the source. -/
def voronoiPolygonsOuterIndexed (clip : List Pt → List Pt → List Pt)
    (vor : VorDiagram) (boundary : List Pt) : List (List Pt) :=
  vor.point_region.enum.filterMap (fun ir =>
    let region := vor.regions.getD ir.2 []
    if (-1 : Int) ∉ region ∧ 0 < region.length then
      some (clip (region.map (fun _ => vertexAt vor.vertices (Int.ofNat ir.1)))
        boundary)
    else none)

/-- The `try` body of `create_voronoi`: build points (a missing `points` key
raises when iterated), project, tessellate, compute the 20%-extended
boundary of the projected extent, keep and clip the bounded regions,
serialize. -/
def voronoi_body {J : Type} (lib : VoronoiLib J) (req : VoronoiReq) :
    Except String J :=
  match req.points with
  | none => .error "TypeError"
  | some points =>
    match lib.to_crs_points points with
    | .error e => .error e
    | .ok projected =>
      match lib.voronoi projected with
      | .error e => .error e
      | .ok vor =>
        let b := totalBounds projected
        let boundary := vorBoundary b
        .ok (lib.to_json (voronoiPolygons lib.clip vor boundary))

/-- The `/api/voronoi` endpoint. -/
def create_voronoi {J : Type} (lib : VoronoiLib J) (req : VoronoiReq) :
    Nat × ApiResult J :=
  handle (voronoi_body lib req)

/-! ### Vertex-reduction simplification

`geometry.simplify(tolerance)` delegates to the third-party geometry stack,
whose code is not part of this repository; the following models it. -/

/-- Squared distance from point `p` to the segment from `a` to `b` (the
distance a Douglas-Peucker step measures), exactly over the rationals: the
projection parameter is clamped to the segment. -/
def segDistSq (p a b : Pt) : Rat :=
  let abx := b.1 - a.1
  let aby := b.2 - a.2
  let apx := p.1 - a.1
  let apy := p.2 - a.2
  let len2 := abx * abx + aby * aby
  if len2 = 0 then apx * apx + apy * apy
  else
    let t := max 0 (min 1 ((apx * abx + apy * aby) / len2))
    let ex := p.1 - (a.1 + t * abx)
    let ey := p.2 - (a.2 + t * aby)
    ex * ex + ey * ey

/-- `p` lies on the closed segment from `a` to `b`. -/
def onSeg (p a b : Pt) : Prop :=
  ∃ t : Rat, 0 ≤ t ∧ t ≤ 1 ∧
    p.1 = a.1 + t * (b.1 - a.1) ∧ p.2 = a.2 + t * (b.2 - a.2)

/-- Split a list at an element maximizing `f`: returns `(before, argmax,
after)`, or `none` for the empty list. -/
def argmaxSplit (f : Pt → Rat) : List Pt → Option (List Pt × Pt × List Pt)
  | [] => none
  | p :: ps =>
    match argmaxSplit f ps with
    | none => some ([], p, [])
    | some (l, m, r) =>
      if f p < f m then some (p :: l, m, r) else some ([], p, ps)

/-- Modelled from the spec: the recursive step of the "Douglas-Peucker-style"
vertex reduction the simplify endpoint delegates to (the library itself is
not in this repository).  Given the interior points `mid` between the kept
endpoints `a` and `b`, the point farthest from the chord is found; if even it
is within tolerance all interior points are dropped, otherwise it is kept and
both halves are reduced recursively.  The fuel argument (called with
`mid.length`) makes the recursion structural; it never runs out, as each
sublist is shorter than `mid`. -/
def dpAux (tol : Rat) : Nat → Pt → Pt → List Pt → List Pt
  | 0, _, _, _ => []
  | fuel + 1, a, b, mid =>
    match argmaxSplit (fun p => segDistSq p a b) mid with
    | none => []
    | some (l, m, r) =>
      if segDistSq m a b ≤ tol then []
      else dpAux tol fuel a m l ++ m :: dpAux tol fuel m b r

/-- Modelled from the spec: "Douglas-Peucker-style" vertex reduction of a
vertex sequence at a given tolerance.  The first and last vertices are always
kept. -/
def douglasPeucker (tol : Rat) : List Pt → List Pt
  | [] => []
  | [p] => [p]
  | a :: q :: rest =>
    let tl := q :: rest
    let b := tl.getLast (by simp)
    let mid := tl.dropLast
    a :: dpAux tol mid.length a b mid ++ [b]

/-- `CoversFrom a inp out`: starting from the already-kept vertex `a`, the
vertex sequence `a :: out` is obtained from `a :: inp` by deleting only runs
of vertices that lie exactly on the segment between the two kept vertices
surrounding them.  This is the sense in which a reduced vertex sequence is a
geometric equivalent of the original. -/
inductive CoversFrom : Pt → List Pt → List Pt → Prop
  | nil (a : Pt) : CoversFrom a [] []
  | keep (a b : Pt) (mid inp out : List Pt) :
      (∀ p ∈ mid, onSeg p a b) → CoversFrom b inp out →
      CoversFrom a (mid ++ b :: inp) (b :: out)

/-- `out` is the vertex sequence `inp` unchanged, or a geometric equivalent
of it: same first vertex, and every deleted vertex lies on the segment
joining the kept vertices around it. -/
def vertexEquiv : List Pt → List Pt → Prop
  | [], [] => True
  | a :: inp, a' :: out => a' = a ∧ CoversFrom a inp out
  | _, _ => False

/-- Modelled from the spec: the simplify endpoint's library instantiated with
the Douglas-Peucker reduction on raw vertex sequences. -/
def dpShapely : SimplifyLib (List Pt) (List Pt) where
  shape := fun g =>
    match g with
    | some g => .ok g
    | none => .error "TypeError"
  simplify := fun g tol => .ok (douglasPeucker tol g)
  to_geo_interface := id

/-! ### Concrete instances used by witnesses and counterexamples -/

/-- A buffer library whose parse step always raises. -/
def failBufferLib : BufferLib Unit Unit where
  shape := fun _ => .error "boom"
  to_crs_3857 := fun g => .ok g
  buffer := fun g _ => .ok g
  to_crs_4326 := fun g => .ok g
  to_json := fun _ => ()

/-- A simplify library whose parse step always raises. -/
def failSimplifyLib : SimplifyLib Unit Unit where
  shape := fun _ => .error "boom"
  simplify := fun g _ => .ok g
  to_geo_interface := fun _ => ()

/-- An intersection library whose parse step always raises. -/
def failIntersectLib : IntersectLib Unit Unit where
  shape := fun _ => .error "boom"
  intersects := fun _ _ => false
  intersection := fun _ _ => ()
  to_geo_interface := fun _ => ()

/-- An intersection library on point sets: geometries are finite lists of
points, intersection is list intersection. -/
def listIntersectLib : IntersectLib (List Pt) (List Pt) where
  shape := fun g =>
    match g with
    | some g => .ok g
    | none => .error "TypeError"
  intersects := fun g1 g2 => decide (∃ p ∈ g1, p ∈ g2)
  intersection := fun g1 g2 => g1.filter (fun p => p ∈ g2)
  to_geo_interface := id

/-- An analyze library in which reprojection succeeds and the aggregates are
irrelevant constants (the evaluated requests contain no polygonal or line
features, so neither oracle is reached). -/
def pointAnalyzeLib : AnalyzeLib where
  to_crs_gdf := fun fs => .ok fs
  area_stats := fun _ => (0, 0, 0, 0)
  length_stats := fun _ => (0, 0, 0, 0)

/-- An analyze request with a single `Point` feature carrying the two
properties `name` and `value`. -/
def exAnalyzeReq : AnalyzeReq where
  geojson := some { features := [
    { geometry := { gtype := "Point", coords := [(0, 0)] },
      properties := [("name", PVal.s "a"), ("value", PVal.n 1)] }] }

/-- A convert library whose read step always raises (an unreadable upload). -/
def boomConvertLib : ConvertLib Unit Unit Unit where
  read_file := fun _ => .error "boom"
  to_json := fun _ => ()
  to_wkt := fun _ => []

/-- A convert library whose read step succeeds. -/
def okConvertLib : ConvertLib Unit Unit Unit where
  read_file := fun _ => .ok ()
  to_json := fun _ => ()
  to_wkt := fun _ => []

/-- A convert request uploading a file and asking for format `xml`. -/
def xmlConvertReq : ConvertReq Unit where
  files := [("file", ())]
  format := some "xml"

/-- A Voronoi diagram with one point whose (bounded) region is the
vertex-index list `[1, 2]`: indexing `vertices` by the region's own entries
and indexing it by the outer enumeration index `0` give different polygons. -/
def exVor : VorDiagram where
  point_region := [0]
  regions := [[1, 2]]
  vertices := [(0, 0), (1, 0), (0, 1)]

/-- A clip operation that returns the polygon unchanged, so the constructed
polygons can be observed directly. -/
def idClip : List Pt → List Pt → List Pt := fun poly _ => poly

/-- A Voronoi library whose projection raises. -/
def failVoronoiLib : VoronoiLib Unit where
  to_crs_points := fun _ => .error "boom"
  voronoi := fun _ => .error "boom"
  clip := idClip
  to_json := fun _ => ()

/-- A Voronoi library in which projection is the identity and the
tessellation always returns `exVor`. -/
def exVoronoiLib : VoronoiLib (List (List Pt)) where
  to_crs_points := fun ps => .ok ps
  voronoi := fun _ => .ok exVor
  clip := idClip
  to_json := id

/-! ## Helper lemmas -/

theorem filterMap_enumFrom_snd {α β : Type} (g : α → Option β) :
    ∀ (n : Nat) (l : List α),
      (l.enumFrom n).filterMap (fun p => g p.2) = l.filterMap g := by
  intro n l
  induction l generalizing n with
  | nil => rfl
  | cons a l ih => simp [List.enumFrom, List.filterMap_cons, ih]

/-- The outer enumeration index is not consulted by the region loop: the
polygon list depends on each `point_region` entry alone, the vertex lookup
being driven by the region's own vertex-index list. -/
theorem voronoiPolygons_eq_filterMap (clip : List Pt → List Pt → List Pt)
    (vor : VorDiagram) (boundary : List Pt) :
    voronoiPolygons clip vor boundary =
      vor.point_region.filterMap (fun ridx =>
        let region := vor.regions.getD ridx []
        if (-1 : Int) ∉ region ∧ 0 < region.length then
          some (clip (region.map (vertexAt vor.vertices)) boundary)
        else none) := by
  unfold voronoiPolygons List.enum
  exact filterMap_enumFrom_snd (fun ridx =>
    let region := vor.regions.getD ridx []
    if (-1 : Int) ∉ region ∧ 0 < region.length then
      some (clip (region.map (vertexAt vor.vertices)) boundary)
    else none) 0 vor.point_region

theorem foldl_mergeB_le (ps : List Pt) : ∀ b : Bounds,
    (ps.foldl mergeB b).xmin ≤ b.xmin ∧ (ps.foldl mergeB b).ymin ≤ b.ymin ∧
    b.xmax ≤ (ps.foldl mergeB b).xmax ∧ b.ymax ≤ (ps.foldl mergeB b).ymax := by
  induction ps with
  | nil => intro b; exact ⟨le_refl _, le_refl _, le_refl _, le_refl _⟩
  | cons p ps ih =>
    intro b
    have h := ih (mergeB b p)
    refine ⟨h.1.trans ?_, h.2.1.trans ?_, le_trans ?_ h.2.2.1, le_trans ?_ h.2.2.2⟩ <;>
      simp [mergeB]

theorem foldl_mergeB_mem (ps : List Pt) : ∀ (b : Bounds), ∀ p ∈ ps,
    (ps.foldl mergeB b).xmin ≤ p.1 ∧ p.1 ≤ (ps.foldl mergeB b).xmax ∧
    (ps.foldl mergeB b).ymin ≤ p.2 ∧ p.2 ≤ (ps.foldl mergeB b).ymax := by
  induction ps with
  | nil => intro b p hp; cases hp
  | cons q ps ih =>
    intro b p hp
    rcases List.mem_cons.1 hp with rfl | hp
    · have h := foldl_mergeB_le ps (mergeB b p)
      refine ⟨h.1.trans ?_, le_trans ?_ h.2.2.1, h.2.1.trans ?_, le_trans ?_ h.2.2.2⟩ <;>
        simp [mergeB]
    · exact ih (mergeB b q) p hp

theorem foldl_mergeB_attain (ps : List Pt) : ∀ b : Bounds,
    ((ps.foldl mergeB b).xmin = b.xmin ∨ ∃ p ∈ ps, (ps.foldl mergeB b).xmin = p.1) ∧
    ((ps.foldl mergeB b).ymin = b.ymin ∨ ∃ p ∈ ps, (ps.foldl mergeB b).ymin = p.2) ∧
    ((ps.foldl mergeB b).xmax = b.xmax ∨ ∃ p ∈ ps, (ps.foldl mergeB b).xmax = p.1) ∧
    ((ps.foldl mergeB b).ymax = b.ymax ∨ ∃ p ∈ ps, (ps.foldl mergeB b).ymax = p.2) := by
  induction ps with
  | nil => intro b; simp
  | cons q ps ih =>
    intro b
    have h := ih (mergeB b q)
    refine ⟨?_, ?_, ?_, ?_⟩
    · rcases h.1 with h1 | ⟨p, hp, h1⟩
      · rcases min_choice b.xmin q.1 with h2 | h2
        · exact Or.inl (h1.trans h2)
        · exact Or.inr ⟨q, List.mem_cons_self q ps, h1.trans h2⟩
      · exact Or.inr ⟨p, List.mem_cons_of_mem q hp, h1⟩
    · rcases h.2.1 with h1 | ⟨p, hp, h1⟩
      · rcases min_choice b.ymin q.2 with h2 | h2
        · exact Or.inl (h1.trans h2)
        · exact Or.inr ⟨q, List.mem_cons_self q ps, h1.trans h2⟩
      · exact Or.inr ⟨p, List.mem_cons_of_mem q hp, h1⟩
    · rcases h.2.2.1 with h1 | ⟨p, hp, h1⟩
      · rcases max_choice b.xmax q.1 with h2 | h2
        · exact Or.inl (h1.trans h2)
        · exact Or.inr ⟨q, List.mem_cons_self q ps, h1.trans h2⟩
      · exact Or.inr ⟨p, List.mem_cons_of_mem q hp, h1⟩
    · rcases h.2.2.2 with h1 | ⟨p, hp, h1⟩
      · rcases max_choice b.ymax q.2 with h2 | h2
        · exact Or.inl (h1.trans h2)
        · exact Or.inr ⟨q, List.mem_cons_self q ps, h1.trans h2⟩
      · exact Or.inr ⟨p, List.mem_cons_of_mem q hp, h1⟩

/-- `totalBounds` of a nonempty point list is exactly the bounding box: every
point lies inside it and each of its four sides is attained. -/
theorem totalBounds_spec (ps : List Pt) (hne : ps ≠ []) :
    (∀ p ∈ ps, (totalBounds ps).xmin ≤ p.1 ∧ p.1 ≤ (totalBounds ps).xmax ∧
      (totalBounds ps).ymin ≤ p.2 ∧ p.2 ≤ (totalBounds ps).ymax) ∧
    (∃ p ∈ ps, (totalBounds ps).xmin = p.1) ∧
    (∃ p ∈ ps, (totalBounds ps).ymin = p.2) ∧
    (∃ p ∈ ps, (totalBounds ps).xmax = p.1) ∧
    (∃ p ∈ ps, (totalBounds ps).ymax = p.2) := by
  cases ps with
  | nil => exact absurd rfl hne
  | cons q ps =>
    refine ⟨?_, ?_, ?_, ?_, ?_⟩
    · intro p hp
      rcases List.mem_cons.1 hp with rfl | hp
      · have h := foldl_mergeB_le ps (ptBounds p)
        exact ⟨h.1, h.2.2.1, h.2.1, h.2.2.2⟩
      · exact foldl_mergeB_mem ps (ptBounds q) p hp
    · rcases (foldl_mergeB_attain ps (ptBounds q)).1 with h1 | ⟨p, hp, h1⟩
      · exact ⟨q, List.mem_cons_self q ps, h1⟩
      · exact ⟨p, List.mem_cons_of_mem q hp, h1⟩
    · rcases (foldl_mergeB_attain ps (ptBounds q)).2.1 with h1 | ⟨p, hp, h1⟩
      · exact ⟨q, List.mem_cons_self q ps, h1⟩
      · exact ⟨p, List.mem_cons_of_mem q hp, h1⟩
    · rcases (foldl_mergeB_attain ps (ptBounds q)).2.2.1 with h1 | ⟨p, hp, h1⟩
      · exact ⟨q, List.mem_cons_self q ps, h1⟩
      · exact ⟨p, List.mem_cons_of_mem q hp, h1⟩
    · rcases (foldl_mergeB_attain ps (ptBounds q)).2.2.2 with h1 | ⟨p, hp, h1⟩
      · exact ⟨q, List.mem_cons_self q ps, h1⟩
      · exact ⟨p, List.mem_cons_of_mem q hp, h1⟩

theorem sum_sq_eq_zero {x y : Rat} (h : x * x + y * y = 0) : x = 0 ∧ y = 0 := by
  have hx : x * x = 0 :=
    le_antisymm (by nlinarith [mul_self_nonneg y]) (mul_self_nonneg x)
  have hy : y * y = 0 :=
    le_antisymm (by nlinarith [mul_self_nonneg x]) (mul_self_nonneg y)
  exact ⟨mul_self_eq_zero.mp hx, mul_self_eq_zero.mp hy⟩

theorem segDistSq_nonneg (p a b : Pt) : 0 ≤ segDistSq p a b := by
  unfold segDistSq
  dsimp only
  split <;> exact add_nonneg (mul_self_nonneg _) (mul_self_nonneg _)

/-- A point at squared segment distance zero lies on the segment. -/
theorem segDistSq_eq_zero_onSeg {p a b : Pt} (h : segDistSq p a b = 0) :
    onSeg p a b := by
  unfold segDistSq at h
  dsimp only at h
  by_cases hlen : (b.1 - a.1) * (b.1 - a.1) + (b.2 - a.2) * (b.2 - a.2) = 0
  · rw [if_pos hlen] at h
    obtain ⟨hx, hy⟩ := sum_sq_eq_zero h
    exact ⟨0, le_refl 0, zero_le_one,
      by rw [sub_eq_zero.mp hx]; ring, by rw [sub_eq_zero.mp hy]; ring⟩
  · rw [if_neg hlen] at h
    obtain ⟨hx, hy⟩ := sum_sq_eq_zero h
    refine ⟨max 0 (min 1 (((p.1 - a.1) * (b.1 - a.1) + (p.2 - a.2) * (b.2 - a.2)) /
        ((b.1 - a.1) * (b.1 - a.1) + (b.2 - a.2) * (b.2 - a.2)))),
      le_max_left 0 _, max_le zero_le_one (min_le_left 1 _), ?_, ?_⟩
    · have := sub_eq_zero.mp hx
      linarith [this]
    · have := sub_eq_zero.mp hy
      linarith [this]

theorem argmaxSplit_eq_none (f : Pt → Rat) (xs : List Pt) :
    argmaxSplit f xs = none ↔ xs = [] := by
  cases xs with
  | nil => simp [argmaxSplit]
  | cons p ps =>
    simp only [argmaxSplit]
    cases argmaxSplit f ps with
    | none => simp
    | some lmr =>
      rcases lmr with ⟨l, m, r⟩
      dsimp only
      split <;> simp

theorem argmaxSplit_shape (f : Pt → Rat) :
    ∀ (xs l : List Pt) (m : Pt) (r : List Pt),
      argmaxSplit f xs = some (l, m, r) → xs = l ++ m :: r := by
  intro xs
  induction xs with
  | nil => intro l m r h; cases h
  | cons p ps ih =>
    intro l m r h
    unfold argmaxSplit at h
    cases hrec : argmaxSplit f ps with
    | none =>
      rw [hrec] at h
      have hps : ps = [] := (argmaxSplit_eq_none f ps).mp hrec
      simp only [Option.some.injEq, Prod.mk.injEq] at h
      obtain ⟨rfl, rfl, rfl⟩ := h
      simp [hps]
    | some lmr =>
      rcases lmr with ⟨l', m', r'⟩
      rw [hrec] at h
      dsimp only at h
      split at h <;> simp only [Option.some.injEq, Prod.mk.injEq] at h <;>
        obtain ⟨rfl, rfl, rfl⟩ := h
      · rw [ih l' m' r' hrec]; rfl
      · rfl

theorem argmaxSplit_max (f : Pt → Rat) :
    ∀ (xs l : List Pt) (m : Pt) (r : List Pt),
      argmaxSplit f xs = some (l, m, r) → ∀ q ∈ xs, f q ≤ f m := by
  intro xs
  induction xs with
  | nil => intro l m r h; cases h
  | cons p ps ih =>
    intro l m r h q hq
    unfold argmaxSplit at h
    cases hrec : argmaxSplit f ps with
    | none =>
      rw [hrec] at h
      have hps : ps = [] := (argmaxSplit_eq_none f ps).mp hrec
      simp only [Option.some.injEq, Prod.mk.injEq] at h
      obtain ⟨rfl, rfl, rfl⟩ := h
      subst hps
      rcases List.mem_cons.1 hq with rfl | hq
      · exact le_refl _
      · cases hq
    | some lmr =>
      rcases lmr with ⟨l', m', r'⟩
      rw [hrec] at h
      dsimp only at h
      split at h <;> simp only [Option.some.injEq, Prod.mk.injEq] at h <;>
        obtain ⟨rfl, rfl, rfl⟩ := h
      · rename_i hlt
        rcases List.mem_cons.1 hq with rfl | hq
        · exact le_of_lt hlt
        · exact ih l' m' r' hrec q hq
      · rename_i hge
        rcases List.mem_cons.1 hq with rfl | hq
        · exact le_refl _
        · exact (ih l' m' r' hrec q hq).trans (not_lt.mp hge)

theorem CoversFrom.sublist {a : Pt} {inp out : List Pt}
    (h : CoversFrom a inp out) : out.Sublist inp := by
  induction h with
  | nil a => exact List.Sublist.refl []
  | keep a b mid inp out hmid hrest ih =>
    exact (ih.cons₂ b).trans (List.sublist_append_right mid (b :: inp))

theorem CoversFrom.out_nil {b : Pt} {inp out : List Pt}
    (h : CoversFrom b inp out) : inp = [] ↔ out = [] := by
  induction h with
  | nil a => simp
  | keep a b mid inp out hmid hrest ih => simp

/-- Two covering derivations over consecutive stretches that share their
junction vertex `m` compose. -/
theorem CoversFrom.glue {a : Pt} {w z : List Pt} (h : CoversFrom a w z) :
    ∀ (u v : List Pt) (m : Pt) (xs ys : List Pt),
      w = u ++ [m] → z = v ++ [m] → CoversFrom m xs ys →
      CoversFrom a (u ++ m :: xs) (v ++ m :: ys) := by
  induction h with
  | nil a =>
    intro u v m xs ys hw hz hxy
    simp at hw
  | keep a b mid inp out hmid hrest ih =>
    intro u v m xs ys hw hz hxy
    rcases List.eq_nil_or_concat inp with rfl | ⟨inp₀, q, hinp⟩
    · obtain rfl : out = [] := (hrest.out_nil).mp rfl
      cases v with
      | cons v₀ v' =>
        simp only [List.cons_append] at hz
        obtain ⟨rfl, habs⟩ := List.cons.inj hz
        exact absurd habs (by simp)
      | nil =>
        simp only [List.nil_append] at hz
        obtain ⟨rfl, -⟩ := List.cons.inj hz
        obtain ⟨rfl, -⟩ := List.append_inj' hw rfl
        exact CoversFrom.keep a b mid xs ys hmid hxy
    · rw [List.concat_eq_append] at hinp
      subst hinp
      have hw' : (mid ++ b :: inp₀) ++ [q] = u ++ [m] := by
        simpa [List.append_assoc] using hw
      obtain ⟨rfl, hqm⟩ := List.append_inj' hw' rfl
      obtain rfl : q = m := (List.cons.inj hqm).1
      cases v with
      | nil =>
        simp only [List.nil_append] at hz
        obtain ⟨rfl, rfl⟩ := List.cons.inj hz
        have habs := (hrest.out_nil).mpr rfl
        exact absurd habs (by simp)
      | cons v₀ v' =>
        simp only [List.cons_append] at hz
        obtain ⟨rfl, rfl⟩ := List.cons.inj hz
        have hrec := ih inp₀ v' q xs ys rfl rfl hxy
        have hk := CoversFrom.keep a b mid (inp₀ ++ q :: xs) (v' ++ q :: ys) hmid hrec
        simpa [List.append_assoc] using hk

/-- With tolerance 0, the Douglas-Peucker recursion deletes only vertices
lying exactly on the segment between the kept vertices around them. -/
theorem dpAux_covers : ∀ (fuel : Nat) (a b : Pt) (mid : List Pt),
    mid.length ≤ fuel →
    CoversFrom a (mid ++ [b]) (dpAux 0 fuel a b mid ++ [b]) := by
  intro fuel
  induction fuel with
  | zero =>
    intro a b mid h
    obtain rfl : mid = [] := List.eq_nil_of_length_eq_zero (Nat.le_zero.mp h)
    exact CoversFrom.keep a b [] [] [] (by intro p hp; cases hp) (CoversFrom.nil b)
  | succ fuel ih =>
    intro a b mid h
    cases hsplit : argmaxSplit (fun p => segDistSq p a b) mid with
    | none =>
      obtain rfl : mid = [] := (argmaxSplit_eq_none _ mid).mp hsplit
      exact CoversFrom.keep a b [] [] [] (by intro p hp; cases hp) (CoversFrom.nil b)
    | some lmr =>
      rcases lmr with ⟨l, m, r⟩
      have hshape := argmaxSplit_shape _ mid l m r hsplit
      have hmax := argmaxSplit_max _ mid l m r hsplit
      by_cases htol : segDistSq m a b ≤ 0
      · have hall : ∀ p ∈ mid, onSeg p a b := by
          intro p hp
          exact segDistSq_eq_zero_onSeg
            (le_antisymm ((hmax p hp).trans htol) (segDistSq_nonneg p a b))
        have hres : dpAux 0 (fuel + 1) a b mid = [] := by
          simp only [dpAux, hsplit]
          rw [if_pos htol]
        rw [hres]
        exact CoversFrom.keep a b mid [] [] hall (CoversFrom.nil b)
      · have hres : dpAux 0 (fuel + 1) a b mid =
            dpAux 0 fuel a m l ++ m :: dpAux 0 fuel m b r := by
          simp only [dpAux, hsplit]
          rw [if_neg htol]
        have hlen : mid.length = l.length + r.length + 1 := by
          rw [hshape]; simp only [List.length_append, List.length_cons]; omega
        have ih1 := ih a m l (by omega)
        have ih2 := ih m b r (by omega)
        have hglue := ih1.glue l (dpAux 0 fuel a m l) m (r ++ [b])
          (dpAux 0 fuel m b r ++ [b]) rfl rfl ih2
        rw [hres, hshape]
        simpa [List.append_assoc] using hglue

/-- Douglas-Peucker at tolerance 0 returns the vertex sequence itself or a
geometric equivalent: a subsequence in which every deleted vertex lies on
the segment joining the kept vertices around it. -/
theorem douglasPeucker_zero_equiv (pts : List Pt) :
    vertexEquiv pts (douglasPeucker 0 pts) ∧ (douglasPeucker 0 pts).Sublist pts := by
  match pts with
  | [] => exact ⟨trivial, List.Sublist.refl []⟩
  | [p] => exact ⟨⟨rfl, CoversFrom.nil p⟩, List.Sublist.refl [p]⟩
  | a :: q :: rest =>
    have hd : (q :: rest).dropLast ++ [(q :: rest).getLast (by simp)] = q :: rest :=
      List.dropLast_append_getLast (by simp)
    have hcov := dpAux_covers ((q :: rest).dropLast).length a
      ((q :: rest).getLast (by simp)) ((q :: rest).dropLast) le_rfl
    rw [hd] at hcov
    refine ⟨⟨rfl, hcov⟩, ?_⟩
    exact (CoversFrom.sublist hcov).cons₂ a

/-! ## Claims -/

/-- C9: a buffer request that omits `distance` is buffered with distance 100
meters, and a simplify request that omits `tolerance` is simplified with
tolerance 0.0001 (= 1/10000) in source CRS units: each endpoint behaves
identically to one given the default explicitly. -/
theorem default_parameter_values :
    (∀ (J G : Type) (lib : BufferLib J G) (g : Option J),
      buffer_geometry lib { geometry := g, distance := none } =
        buffer_geometry lib { geometry := g, distance := some 100 }) ∧
    (∀ (J G : Type) (lib : SimplifyLib J G) (g : Option J),
      simplify_geometry lib { geometry := g, tolerance := none } =
        simplify_geometry lib { geometry := g, tolerance := some (1 / 10000) }) :=
  ⟨fun _ _ _ _ => rfl, fun _ _ _ _ => rfl⟩

/-- C4: on every modelled endpoint, an exception raised by the `try` body is
caught at the endpoint boundary and answered with HTTP 400 and the body
`{status: "error", message: exception text}`, the text verbatim, whatever the
failure was.  (`/api/health` has no failure path and raises nothing.) -/
theorem catch_all_error_handling :
    (∀ (J G : Type) (lib : BufferLib J G) (req : BufferReq J) (msg : String),
      buffer_body lib req = .error msg →
        buffer_geometry lib req = (400, .error msg)) ∧
    (∀ (J G : Type) (lib : SimplifyLib J G) (req : SimplifyReq J) (msg : String),
      simplify_body lib req = .error msg →
        simplify_geometry lib req = (400, .error msg)) ∧
    (∀ (J G : Type) (lib : IntersectLib J G) (req : IntersectReq J) (msg : String),
      find_intersection_body lib req = .error msg →
        find_intersection lib req = (400, .error msg)) ∧
    (∀ (lib : AnalyzeLib) (req : AnalyzeReq) (msg : String),
      analyze_body lib req = .error msg →
        analyze_geojson lib req = (400, .error msg)) ∧
    (∀ (F D J : Type) (lib : ConvertLib F D J) (req : ConvertReq F) (msg : String),
      convert_body lib req = .error msg →
        convert_format lib req = (400, .error msg)) ∧
    (∀ (J : Type) (lib : VoronoiLib J) (req : VoronoiReq) (msg : String),
      voronoi_body lib req = .error msg →
        create_voronoi lib req = (400, .error msg)) := by
  refine ⟨?_, ?_, ?_, ?_, ?_, ?_⟩ <;> intros <;>
    simp only [buffer_geometry, simplify_geometry, find_intersection,
      analyze_geojson, convert_format, create_voronoi, *] <;> rfl

/-- Witness for C4: concrete failing requests on each endpoint. -/
theorem catch_all_error_handling_witness :
    buffer_geometry failBufferLib { geometry := none, distance := none } =
      (400, .error "boom") ∧
    simplify_geometry failSimplifyLib { geometry := none, tolerance := none } =
      (400, .error "boom") ∧
    find_intersection failIntersectLib { geometry1 := none, geometry2 := none } =
      (400, .error "boom") ∧
    analyze_geojson pointAnalyzeLib { geojson := none } =
      (400, .error "TypeError") ∧
    convert_format boomConvertLib xmlConvertReq = (400, .error "boom") ∧
    create_voronoi failVoronoiLib { points := some [] } = (400, .error "boom") :=
  ⟨catch_all_error_handling.1 _ _ _ _ _ rfl,
   catch_all_error_handling.2.1 _ _ _ _ _ rfl,
   catch_all_error_handling.2.2.1 _ _ _ _ _ rfl,
   catch_all_error_handling.2.2.2.1 _ _ _ rfl,
   catch_all_error_handling.2.2.2.2.1 _ _ _ _ _ _ rfl,
   catch_all_error_handling.2.2.2.2.2 _ _ _ _ rfl⟩

/-- C5: a convert request whose multipart body has no `file` part is answered
with HTTP 400, status `error`, and the message exactly "No file provided". -/
theorem convert_missing_file {F D J : Type} (lib : ConvertLib F D J)
    (req : ConvertReq F) (h : req.files.lookup "file" = none) :
    convert_format lib req = (400, .error "No file provided") := by
  simp [convert_format, convert_body, h]

/-- Witness for C5: a convert request with an empty multipart body. -/
theorem convert_missing_file_witness :
    convert_format okConvertLib ({ files := [] } : ConvertReq Unit) =
      (400, .error "No file provided") :=
  convert_missing_file okConvertLib { files := [] } rfl

/-- C3: on an intersection request whose two geometries parse, if the
library's intersection test is positive the endpoint answers HTTP 200 with
`intersects: true` and the computed intersection geometry; if it is negative
the endpoint answers HTTP 200 with `intersects: false` and a null
`intersection`. -/
theorem intersection_behavior {J G : Type} (lib : IntersectLib J G)
    (req : IntersectReq J) (g1 g2 : G)
    (h1 : lib.shape req.geometry1 = .ok g1)
    (h2 : lib.shape req.geometry2 = .ok g2) :
    (lib.intersects g1 g2 = true →
      find_intersection lib req = (200, .success
        { intersects := true,
          intersection := some (lib.to_geo_interface (lib.intersection g1 g2)) })) ∧
    (lib.intersects g1 g2 = false →
      find_intersection lib req = (200, .success
        { intersects := false, intersection := none })) := by
  constructor <;> intro hint <;>
    simp [find_intersection, find_intersection_body, h1, h2, hint, handle]

/-- Witness for C3: two concrete point-set geometries, one pair meeting and
one pair disjoint. -/
theorem intersection_behavior_witness :
    find_intersection listIntersectLib
        { geometry1 := some [(0, 0)], geometry2 := some [(0, 0), (1, 1)] } =
      (200, .success { intersects := true, intersection := some [(0, 0)] }) ∧
    find_intersection listIntersectLib
        { geometry1 := some [(0, 0)], geometry2 := some [(1, 1)] } =
      (200, .success { intersects := false, intersection := none }) :=
  ⟨(intersection_behavior listIntersectLib
      { geometry1 := some [(0, 0)], geometry2 := some [(0, 0), (1, 1)] }
      [(0, 0)] [(0, 0), (1, 1)] rfl rfl).1 (by decide),
   (intersection_behavior listIntersectLib
      { geometry1 := some [(0, 0)], geometry2 := some [(1, 1)] }
      [(0, 0)] [(1, 1)] rfl rfl).2 (by decide)⟩

/-- C10: every HTTP 200 response of the intersection endpoint has status
`success`, and its `intersects` flag is `true` exactly when its
`intersection` field is non-null. -/
theorem intersection_flag_consistency {J G : Type} (lib : IntersectLib J G)
    (req : IntersectReq J) (h : (find_intersection lib req).1 = 200) :
    statusOf (find_intersection lib req).2 = "success" ∧
    intersectsFlag (find_intersection lib req).2 =
      intersectionPresent (find_intersection lib req).2 := by
  unfold find_intersection find_intersection_body handle at h ⊢
  cases hs1 : lib.shape req.geometry1 with
  | error e => rw [hs1] at h; simp at h
  | ok g1 =>
    cases hs2 : lib.shape req.geometry2 with
    | error e => rw [hs1, hs2] at h; simp at h
    | ok g2 =>
      cases hint : lib.intersects g1 g2 <;>
        simp [hint, statusOf, intersectsFlag, intersectionPresent]

/-- Witness for C10: a concrete 200 response on disjoint point sets. -/
theorem intersection_flag_consistency_witness :
    statusOf (find_intersection listIntersectLib
        { geometry1 := some [(0, 0)], geometry2 := some [(1, 1)] }).2 = "success" ∧
    intersectsFlag (find_intersection listIntersectLib
        { geometry1 := some [(0, 0)], geometry2 := some [(1, 1)] }).2 =
      intersectionPresent (find_intersection listIntersectLib
        { geometry1 := some [(0, 0)], geometry2 := some [(1, 1)] }).2 :=
  intersection_flag_consistency listIntersectLib
    { geometry1 := some [(0, 0)], geometry2 := some [(1, 1)] } (by decide)

/-- C1: the `properties` entry of the analyze statistics is NOT the list of
non-geometry property names.  On a collection with one `Point` feature whose
properties are `name` and `value`, `from_features` builds the columns
`[geometry, name, value]` with the geometry column first, so the code's
`gdf.columns[:-1]` — commented "All columns except geometry" — yields
`[geometry, name]`: the geometry column is included and the last property
is dropped. -/
theorem analyze_properties_includes_geometry :
    ∃ st : Stats, analyze_geojson pointAnalyzeLib exAnalyzeReq =
        (200, .success st) ∧
      st.properties = ["geometry", "name"] ∧
      st.properties ≠ ["name", "value"] :=
  ⟨_, rfl, by decide, by decide⟩

/-- Counterexample to C2 as stated: on the concrete diagram `exVor` (one
kept region with vertex-index list `[1, 2]`, enumerated at outer index 0),
the loop's polygon differs from the polygon the claim describes — the
comprehension `[vor.vertices[i] for i in region]` reads the region's own
vertex indices, not the outer enumeration index. -/
theorem voronoi_outer_index_refuted :
    voronoiPolygons idClip exVor [] = [[(1, 0), (0, 1)]] ∧
    voronoiPolygonsOuterIndexed idClip exVor [] = [[(0, 0), (0, 0)]] ∧
    voronoiPolygons idClip exVor [] ≠ voronoiPolygonsOuterIndexed idClip exVor [] := by
  refine ⟨by decide, by decide, by decide⟩

/-- C2 amended: the region-to-point correspondence uses the outer enumeration
index into `point_region`, but the per-region vertex lookup uses the region's
own vertex-index list — the comprehension variable shadows the outer loop
index, so the outer index plays no role in the polygon built for a kept
region. -/
theorem voronoi_vertex_lookup_uses_region_list
    (clip : List Pt → List Pt → List Pt) (vor : VorDiagram)
    (boundary : List Pt) :
    voronoiPolygons clip vor boundary =
      vor.point_region.filterMap (fun ridx =>
        let region := vor.regions.getD ridx []
        if (-1 : Int) ∉ region ∧ 0 < region.length then
          some (clip (region.map (vertexAt vor.vertices)) boundary)
        else none) :=
  voronoiPolygons_eq_filterMap clip vor boundary

/-- Counterexample to C6 as stated: a convert request carrying a file and the
unsupported format `xml` for which reading the upload raises — the response
is HTTP 400 with the raised exception's text, which does not name the
format (the string `xml` does not occur in it). -/
theorem convert_unsupported_read_failure :
    convert_format boomConvertLib xmlConvertReq = (400, .error "boom") ∧
    "boom" ≠ "Unsupported output format: " ++ "xml" ∧
    ¬ "xml".data <:+: "boom".data := by
  refine ⟨rfl, by decide, by decide⟩

/-- C6 amended: on a convert request with a file and a format parameter that
is neither `geojson` nor `wkt`, provided reading the uploaded file succeeds,
the endpoint answers HTTP 400 with status `error` and the message
`Unsupported output format: <format>`. -/
theorem convert_unsupported_format {F D J : Type} (lib : ConvertLib F D J)
    (req : ConvertReq F) (f : F) (gdf : D) (fmt : String)
    (hf : req.files.lookup "file" = some f)
    (hfmt : req.format = some fmt)
    (hread : lib.read_file f = .ok gdf)
    (h1 : fmt ≠ "geojson") (h2 : fmt ≠ "wkt") :
    convert_format lib req = (400, .error ("Unsupported output format: " ++ fmt)) := by
  simp [convert_format, convert_body, hf, hfmt, hread, h1, h2]

/-- Witness for C6 (amended): a readable upload with format `xml`. -/
theorem convert_unsupported_format_witness :
    convert_format okConvertLib xmlConvertReq =
      (400, .error ("Unsupported output format: " ++ "xml")) :=
  convert_unsupported_format okConvertLib xmlConvertReq () () "xml"
    rfl rfl rfl (by decide) (by decide)

/-- C7: on a Voronoi request whose projection and tessellation succeed, the
endpoint returns exactly the polygons of the region loop; a polygon is
produced for a `point_region` entry exactly when its region has no infinite
vertex `-1` and a non-empty vertex list, and every produced polygon is the
clip (library intersection) of the region's polygon against the boundary
rectangle; the rectangle's corners sit `(xmax - xmin)/5` and `(ymax - ymin)/5`
— 20% of the extent — beyond the bounding box of the projected points, a box
every projected point lies in and whose four sides are attained. -/
theorem voronoi_region_filter_and_clip {J : Type} (lib : VoronoiLib J)
    (points projected : List Pt) (vor : VorDiagram)
    (hproj : lib.to_crs_points points = .ok projected)
    (hvor : lib.voronoi projected = .ok vor)
    (hne : projected ≠ []) :
    create_voronoi lib { points := some points } =
      (200, .success (lib.to_json
        (voronoiPolygons lib.clip vor (vorBoundary (totalBounds projected))))) ∧
    (∀ poly ∈ voronoiPolygons lib.clip vor (vorBoundary (totalBounds projected)),
      ∃ ridx ∈ vor.point_region,
        (-1 : Int) ∉ vor.regions.getD ridx [] ∧ vor.regions.getD ridx [] ≠ [] ∧
        poly = lib.clip ((vor.regions.getD ridx []).map (vertexAt vor.vertices))
          (vorBoundary (totalBounds projected))) ∧
    (∀ ridx ∈ vor.point_region,
      (-1 : Int) ∉ vor.regions.getD ridx [] → vor.regions.getD ridx [] ≠ [] →
      lib.clip ((vor.regions.getD ridx []).map (vertexAt vor.vertices))
          (vorBoundary (totalBounds projected)) ∈
        voronoiPolygons lib.clip vor (vorBoundary (totalBounds projected))) ∧
    vorBoundary (totalBounds projected) =
      [((totalBounds projected).xmin -
          ((totalBounds projected).xmax - (totalBounds projected).xmin) / 5,
        (totalBounds projected).ymin -
          ((totalBounds projected).ymax - (totalBounds projected).ymin) / 5),
       ((totalBounds projected).xmax +
          ((totalBounds projected).xmax - (totalBounds projected).xmin) / 5,
        (totalBounds projected).ymin -
          ((totalBounds projected).ymax - (totalBounds projected).ymin) / 5),
       ((totalBounds projected).xmax +
          ((totalBounds projected).xmax - (totalBounds projected).xmin) / 5,
        (totalBounds projected).ymax +
          ((totalBounds projected).ymax - (totalBounds projected).ymin) / 5),
       ((totalBounds projected).xmin -
          ((totalBounds projected).xmax - (totalBounds projected).xmin) / 5,
        (totalBounds projected).ymax +
          ((totalBounds projected).ymax - (totalBounds projected).ymin) / 5)] ∧
    (∀ p ∈ projected,
      (totalBounds projected).xmin ≤ p.1 ∧ p.1 ≤ (totalBounds projected).xmax ∧
      (totalBounds projected).ymin ≤ p.2 ∧ p.2 ≤ (totalBounds projected).ymax) ∧
    (∃ p ∈ projected, (totalBounds projected).xmin = p.1) ∧
    (∃ p ∈ projected, (totalBounds projected).ymin = p.2) ∧
    (∃ p ∈ projected, (totalBounds projected).xmax = p.1) ∧
    (∃ p ∈ projected, (totalBounds projected).ymax = p.2) := by
  have hspec := totalBounds_spec projected hne
  refine ⟨?_, ?_, ?_, ?_, hspec.1, hspec.2.1, hspec.2.2.1, hspec.2.2.2.1,
    hspec.2.2.2.2⟩
  · simp [create_voronoi, voronoi_body, hproj, hvor, handle]
  · rw [voronoiPolygons_eq_filterMap]
    intro poly hpoly
    rcases List.mem_filterMap.1 hpoly with ⟨ridx, hmem, heq⟩
    dsimp only at heq
    split at heq
    · rename_i hkept
      refine ⟨ridx, hmem, hkept.1, List.length_pos.1 hkept.2, ?_⟩
      exact (Option.some.inj heq).symm
    · exact absurd heq (by simp)
  · rw [voronoiPolygons_eq_filterMap]
    intro ridx hmem h1 h2
    refine List.mem_filterMap.2 ⟨ridx, hmem, ?_⟩
    dsimp only
    rw [if_pos ⟨h1, List.length_pos.2 h2⟩]
  · simp only [vorBoundary, List.cons.injEq, Prod.mk.injEq, and_true]
    and_intros <;> ring

/-- Witness for C7: two projected points and the concrete diagram `exVor`. -/
theorem voronoi_region_filter_and_clip_witness :
    create_voronoi exVoronoiLib { points := some [(0, 0), (4, 4)] } =
      (200, .success (voronoiPolygons idClip exVor
        (vorBoundary (totalBounds [(0, 0), (4, 4)])))) :=
  (voronoi_region_filter_and_clip exVoronoiLib [(0, 0), (4, 4)] [(0, 0), (4, 4)]
    exVor rfl rfl (by decide)).1

/-- C8: a simplify request with tolerance 0 succeeds and returns a geometry
whose vertex sequence is either unchanged or a library-defined equivalent of
the input: a subsequence with the same first vertex in which every deleted
vertex lies exactly on the segment between the kept vertices surrounding it
(the simplify library being modelled as the spec's Douglas-Peucker-style
reduction). -/
theorem simplify_tolerance_zero (pts : List Pt) :
    ∃ out, simplify_geometry dpShapely
        { geometry := some pts, tolerance := some 0 } = (200, .success out) ∧
      vertexEquiv pts out ∧ out.Sublist pts :=
  ⟨douglasPeucker 0 pts, rfl, (douglasPeucker_zero_equiv pts).1,
    (douglasPeucker_zero_equiv pts).2⟩

end GeoApi
